import Mathlib

/-!
Verification development for the `oap-agent-supervisor` repository
(`src/oap_supervisor/agent.py`), a configuration-to-graph adapter that
builds a supervisor multi-agent graph from a declarative configuration.

The embedding models the module's own logic: the constant prompt strings,
the `AgentsConfig` / `GraphConfigPydantic` configuration schema, the
`OAPRemoteGraph._sanitize_config` filtering step (on top of the parent
class sanitizer, whose arbitrary output is the input of the embedded
function), `make_child_graphs` with its inner `sanitize_name` helper and
header construction, `make_model`, `make_prompt`, and the `graph` entry
point.  External framework calls (`RemoteGraph`, `ChatOpenAI`,
`create_supervisor`) are modelled as the record of arguments this code
hands to them, which is all this repository controls.

Python strings are Lean `String`s, Python dictionaries are association
lists with string keys, Python `None` on optional values is `Option`, and
a Python runtime error (a raised `TypeError`) is `Except.error`.
-/

set_option autoImplicit false

namespace OAPSupervisor

/-- The `AgentsConfig` pydantic model: one remote agent entry of the
configuration (`deployment_url`, `agent_id`, `name`). -/
structure AgentsConfig where
  deployment_url : String
  agent_id : String
  name : String
deriving DecidableEq, Repr

/-- Values that can appear in a request-configuration dictionary: Python
`None`, a string, a typed list of agent configurations (the validated form
pydantic produces for the `agents` field), or an opaque value of any other
runtime type, distinguished by an index. -/
inductive PyValue where
  | pyNone : PyValue
  | pyStr : String → PyValue
  | pyAgentList : List AgentsConfig → PyValue
  | pyOther : Nat → PyValue
deriving DecidableEq, Repr

/-- A Python dictionary with string keys, as an association list.  A real
dictionary has at most one entry per key; the embedding does not need to
assume this. -/
abbrev PyDict := List (String × PyValue)

/-- `UNEDITABLE_SYSTEM_PROMPT`: the constant suffix always appended to the
system prompt. -/
def UNEDITABLE_SYSTEM_PROMPT : String :=
  "\nYou can invoke sub-agents by calling tools in this format: " ++
  "delegate_to_<name>(user_query) -- replacing <name> with the agent name -- " ++
  "to hand off control. Otherwise, answer the user yourself.\n\n" ++
  "The user will see all messages and tool calls produced in the conversation, \n" ++
  "along with all returned from the sub-agents. With this in mind, ensure you \n" ++
  "never repeat any information already presented to the user.\n"

/-- `DEFAULT_SUPERVISOR_PROMPT`: the default system prompt of the
`system_prompt` field. -/
def DEFAULT_SUPERVISOR_PROMPT : String :=
  "You are a supervisor AI overseeing a team of specialist agents. \n" ++
  "For each incoming user message, decide if it should be handled by one of your agents. \n"

/-- The `GraphConfigPydantic` model: a list of agents (default empty) and
an optional system prompt (default `DEFAULT_SUPERVISOR_PROMPT`; pydantic
allows an explicit `None` because the field is `Optional[str]`). -/
structure GraphConfigPydantic where
  agents : List AgentsConfig := []
  system_prompt : Option String := some DEFAULT_SUPERVISOR_PROMPT
deriving DecidableEq, Repr

/-- The keys of `GraphConfigPydantic.model_fields`: the two declared fields
of the `GraphConfigPydantic` structure above, in declaration order. -/
def graph_config_fields : List String := ["agents", "system_prompt"]

/-- The `RunnableConfig` request context handed to
`OAPRemoteGraph._sanitize_config` (the output of the parent class
sanitizer) and to `graph`.  It is a typed dictionary: the two keys this
code touches are modelled as optional dictionaries (`none` when the key is
absent), and all remaining top-level entries are kept verbatim in
`others`. -/
structure RunnableConfig where
  configurable : Option PyDict
  metadata : Option PyDict
  others : PyDict
deriving DecidableEq, Repr

/-- The dictionary-comprehension step of `OAPRemoteGraph._sanitize_config`:
keep the entries whose key is not a field of `GraphConfigPydantic`. -/
def filterGraphConfigFields (d : PyDict) : PyDict :=
  d.filter (fun kv => !(graph_config_fields.contains kv.1))

/-- `OAPRemoteGraph._sanitize_config`, given the output of
`super()._sanitize_config(config)`: when the `configurable` key is present
its dictionary is filtered through `filterGraphConfigFields`, likewise for
`metadata`, and nothing else is changed. -/
def _sanitize_config (sanitized : RunnableConfig) : RunnableConfig :=
  { sanitized with
    configurable := sanitized.configurable.map filterGraphConfigFields
    metadata := sanitized.metadata.map filterGraphConfigFields }

/-- The characters removed by the regex `[<|\\/>]` in `sanitize_name`. -/
def disallowedChars : List Char := ['<', '|', '\\', '/', '>']

/-- First step of `sanitize_name`: `name.replace(" ", "_")`. -/
def replaceSpacesChars (cs : List Char) : List Char :=
  cs.map (fun c => if c = ' ' then '_' else c)

/-- Second step of `sanitize_name`: `re.sub` removing the disallowed
characters. -/
def removeDisallowedChars (cs : List Char) : List Char :=
  cs.filter (fun c => !(disallowedChars.contains c))

/-- The inner `sanitize_name` helper of `make_child_graphs`: replace spaces
with underscores, then remove the disallowed characters. -/
def sanitize_name (s : String) : String :=
  String.mk (removeDisallowedChars (replaceSpacesChars s.data))

/-- The per-character transformation the specification describes: a space
becomes an underscore, a disallowed character is dropped, any other
character is kept unchanged.  Stated from the words of the claim, to be
compared with `sanitize_name`. -/
def sanitize_name_spec (s : String) : String :=
  String.mk (s.data.flatMap (fun c =>
    if c = ' ' then ['_']
    else if disallowedChars.contains c then []
    else [c]))

/-- The headers dictionary `make_child_graphs` builds: empty when the token
is `None` or falsy (the empty string), otherwise the `Authorization` bearer
header and the `x-supabase-access-token` header. -/
def mkHeaders : Option String → List (String × String)
  | none => []
  | some t =>
      if t = "" then []
      else [("Authorization", "Bearer " ++ t), ("x-supabase-access-token", t)]

/-- The `OAPRemoteGraph` client object as constructed by this code: the
positional graph identifier and the `url`, `name` and `headers` keyword
arguments. -/
structure OAPRemoteGraphClient where
  graph_id : String
  url : String
  name : String
  headers : List (String × String)
deriving DecidableEq, Repr

/-- The inner `create_remote_graph_wrapper` helper of `make_child_graphs`
(with the captured `headers` made an explicit argument). -/
def create_remote_graph_wrapper (headers : List (String × String))
    (agent : AgentsConfig) : OAPRemoteGraphClient :=
  { graph_id := agent.agent_id
    url := agent.deployment_url
    name := sanitize_name agent.name
    headers := headers }

/-- `make_child_graphs`: the empty list when no agents are configured,
otherwise one remote-graph client per configured agent. -/
def make_child_graphs (cfg : GraphConfigPydantic) (access_token : Option String) :
    List OAPRemoteGraphClient :=
  if cfg.agents.isEmpty then []
  else cfg.agents.map (create_remote_graph_wrapper (mkHeaders access_token))

/-- The `ChatOpenAI` model handle, recorded as the arguments this code
passes to the constructor. -/
structure ChatOpenAI where
  model : String
deriving DecidableEq, Repr

/-- `make_model`: always `ChatOpenAI(model="gpt-4o")`. -/
def make_model (_cfg : GraphConfigPydantic) : ChatOpenAI :=
  { model := "gpt-4o" }

/-- The error message of the `TypeError` Python raises when
`cfg.system_prompt` is `None` and the code evaluates
`cfg.system_prompt + UNEDITABLE_SYSTEM_PROMPT`. -/
def pyAddNoneTypeError : String :=
  "TypeError: unsupported operand types for +: NoneType and str"

/-- `make_prompt`: `cfg.system_prompt + UNEDITABLE_SYSTEM_PROMPT`.  When
the prompt is a string the concatenation succeeds; when it is `None` the
Python `+` raises a `TypeError`. -/
def make_prompt (cfg : GraphConfigPydantic) : Except String String :=
  match cfg.system_prompt with
  | some s => .ok (s ++ UNEDITABLE_SYSTEM_PROMPT)
  | none => .error pyAddNoneTypeError

/-- Pydantic validation of the `agents` keyword of
`GraphConfigPydantic(**d)`: an absent key yields the default empty list, a
typed agent list is accepted, anything else fails validation. -/
def parseAgentsField : Option PyValue → Except String (List AgentsConfig)
  | none => .ok []
  | some (.pyAgentList l) => .ok l
  | some _ => .error "ValidationError: agents"

/-- Pydantic validation of the `system_prompt` keyword of
`GraphConfigPydantic(**d)`: an absent key yields the default prompt, an
explicit `None` is accepted because the field is `Optional[str]`, a string
is accepted, anything else fails validation. -/
def parseSystemPromptField : Option PyValue → Except String (Option String)
  | none => .ok (some DEFAULT_SUPERVISOR_PROMPT)
  | some .pyNone => .ok none
  | some (.pyStr s) => .ok (some s)
  | some _ => .error "ValidationError: system_prompt"

/-- `GraphConfigPydantic(**d)`: validate the two declared fields from the
dictionary `d`; extra keys are ignored (the default pydantic behaviour). -/
def parseGraphConfig (d : PyDict) : Except String GraphConfigPydantic := do
  let a ← parseAgentsField (d.lookup "agents")
  let sp ← parseSystemPromptField (d.lookup "system_prompt")
  return { agents := a, system_prompt := sp }

/-- `config.get("x-supabase-access-token")` as used by `graph`: the token
is a string when the entry holds one, and `None` otherwise (`.get` returns
`None` for an absent key; requests carry the token as a string when they
carry it at all). -/
def asStrOpt : Option PyValue → Option String
  | some (.pyStr s) => some s
  | _ => none

/-- The record of arguments `graph` hands to `create_supervisor`: the child
graphs, the model handle, the prompt string, the field names of the config
schema `GraphConfigPydantic`, the handoff tool name pre-fix string, and the
output mode. -/
structure SupervisorCall where
  children : List OAPRemoteGraphClient
  model : ChatOpenAI
  prompt : String
  config_schema : List String
  handoff_tool_pfx : String
  output_mode : String
deriving DecidableEq, Repr

/-- The `graph` entry point: parse the `configurable` entry (an absent key
acts as the empty dictionary) into `GraphConfigPydantic`, read the Supabase
access token from the same dictionary, build the child graphs, and call
`create_supervisor` with the model, the built prompt, the config schema,
handoff tool name pre-fix `delegate_to_` and output mode `full_history`.
A pydantic validation failure or the `TypeError` of `make_prompt`
propagates as an error. -/
def graph (config : RunnableConfig) : Except String SupervisorCall :=
  let confDict := config.configurable.getD []
  match parseGraphConfig confDict with
  | .error e => .error e
  | .ok cfg =>
      let supabase_access_token := asStrOpt (confDict.lookup "x-supabase-access-token")
      let child_graphs := make_child_graphs cfg supabase_access_token
      match make_prompt cfg with
      | .error e => .error e
      | .ok p =>
          .ok { children := child_graphs
                model := make_model cfg
                prompt := p
                config_schema := graph_config_fields
                handoff_tool_pfx := "delegate_to_"
                output_mode := "full_history" }

/-- Concrete request context used to instantiate the filtering theorem. -/
def exampleConfigC1 : RunnableConfig :=
  { configurable := some [("system_prompt", .pyStr "p"), ("thread_id", .pyOther 7)]
    metadata := some [("agents", .pyOther 0), ("run_name", .pyStr "r")]
    others := [("tags", .pyOther 1)] }

/-- Concrete agent configuration used to instantiate the headers theorem. -/
def exampleConfigC9 : GraphConfigPydantic :=
  { agents := [{ deployment_url := "http://localhost:2024", agent_id := "agent-1",
                 name := "my agent" }]
    system_prompt := some "p" }

/-- Concrete request context with no `configurable` entry, used to
instantiate the `graph` theorem on the default path. -/
def exampleEmptyConfig : RunnableConfig :=
  { configurable := none, metadata := none, others := [] }

/-- Concrete request context with agents, a system prompt and an access
token, used to instantiate the `graph` theorem on the general path. -/
def exampleConfigC4 : RunnableConfig :=
  { configurable := some
      [("agents", .pyAgentList [{ deployment_url := "http://u", agent_id := "aid",
                                  name := "a b" }]),
       ("system_prompt", .pyStr "S"),
       ("x-supabase-access-token", .pyStr "tk")]
    metadata := none
    others := [] }

/-- Concrete configuration with one agent, used to exhibit that the access
token changes the constructed clients. -/
def exampleConfigC5 : GraphConfigPydantic :=
  { agents := [{ deployment_url := "http://u", agent_id := "aid", name := "n" }]
    system_prompt := some "p" }

/-- Projection of a client to the fields other than `headers`. -/
def clientSansHeaders (g : OAPRemoteGraphClient) : String × String × String :=
  (g.graph_id, g.url, g.name)

/-- Projection of a supervisor call to everything except the headers of its
children. -/
def callSansHeaders (c : SupervisorCall) :
    List (String × String × String) × ChatOpenAI × String × List String × String × String :=
  (c.children.map clientSansHeaders, c.model, c.prompt, c.config_schema,
   c.handoff_tool_pfx, c.output_mode)

/-! ## Helper lemmas -/

theorem lookup_filterGraphConfigFields_of_mem (d : PyDict) (k : String)
    (hk : k ∈ graph_config_fields) : (filterGraphConfigFields d).lookup k = none := by
  induction d with
  | nil => rfl
  | cons kv tl ih =>
      obtain ⟨k1, v1⟩ := kv
      by_cases hm : k1 ∈ graph_config_fields
      · simpa [filterGraphConfigFields, List.filter_cons, hm] using ih
      · have hne : (k == k1) = false := beq_eq_false_iff_ne.mpr (fun h => hm (h ▸ hk))
        simpa [filterGraphConfigFields, List.filter_cons, hm, List.lookup, hne] using ih

theorem lookup_filterGraphConfigFields_of_not_mem (d : PyDict) (k : String)
    (hk : k ∉ graph_config_fields) :
    (filterGraphConfigFields d).lookup k = d.lookup k := by
  induction d with
  | nil => rfl
  | cons kv tl ih =>
      obtain ⟨k1, v1⟩ := kv
      by_cases hm : k1 ∈ graph_config_fields
      · have hne : (k == k1) = false := beq_eq_false_iff_ne.mpr (fun h => hk (h ▸ hm))
        simpa [filterGraphConfigFields, List.filter_cons, hm, List.lookup, hne] using ih
      · cases hkk : (k == k1) with
        | true => simp [filterGraphConfigFields, List.filter_cons, hm, List.lookup, hkk]
        | false =>
            simpa [filterGraphConfigFields, List.filter_cons, hm, List.lookup, hkk] using ih

theorem sanitizeChars_eq_flatMap (cs : List Char) :
    removeDisallowedChars (replaceSpacesChars cs) =
      cs.flatMap (fun c =>
        if c = ' ' then ['_']
        else if disallowedChars.contains c then []
        else [c]) := by
  induction cs with
  | nil => rfl
  | cons c tl ih =>
      by_cases hsp : c = ' '
      · subst hsp
        simpa [replaceSpacesChars, removeDisallowedChars, List.filter_cons,
          (by decide : ('_' : Char) ∉ disallowedChars)] using ih
      · by_cases hd : c ∈ disallowedChars
        · simpa [replaceSpacesChars, removeDisallowedChars, List.filter_cons, hsp, hd] using ih
        · simpa [replaceSpacesChars, removeDisallowedChars, List.filter_cons, hsp, hd] using ih

theorem mem_sanitizeChars (cs : List Char) (c : Char)
    (hc : c ∈ removeDisallowedChars (replaceSpacesChars cs)) :
    c ≠ ' ' ∧ c ∉ disallowedChars := by
  unfold removeDisallowedChars replaceSpacesChars at hc
  obtain ⟨hmem, hp⟩ := List.mem_filter.mp hc
  refine ⟨?_, by simpa using hp⟩
  obtain ⟨a, _, hfa⟩ := List.mem_map.mp hmem
  by_cases ha : a = ' '
  · rw [if_pos ha] at hfa
    exact hfa ▸ (by decide : ('_' : Char) ≠ ' ')
  · rw [if_neg ha] at hfa
    exact hfa ▸ ha

theorem sanitizeChars_idem (cs : List Char) :
    removeDisallowedChars (replaceSpacesChars (removeDisallowedChars (replaceSpacesChars cs))) =
      removeDisallowedChars (replaceSpacesChars cs) := by
  have hmap : replaceSpacesChars (removeDisallowedChars (replaceSpacesChars cs)) =
      removeDisallowedChars (replaceSpacesChars cs) := by
    have h : ∀ a ∈ removeDisallowedChars (replaceSpacesChars cs),
        (fun c => if c = ' ' then '_' else c) a = a :=
      fun a ha => if_neg (mem_sanitizeChars cs a ha).1
    simpa [replaceSpacesChars] using List.map_congr_left h
  rw [hmap]
  apply List.filter_eq_self.mpr
  intro a ha
  simpa using (mem_sanitizeChars cs a ha).2

theorem filterGraphConfigFields_idem (d : PyDict) :
    filterGraphConfigFields (filterGraphConfigFields d) = filterGraphConfigFields d := by
  unfold filterGraphConfigFields
  apply List.filter_eq_self.mpr
  intro kv hkv
  exact (List.mem_filter.mp hkv).2

theorem lookup_cons_ne (k k1 : String) (v : PyValue) (d : PyDict)
    (h : (k == k1) = false) : List.lookup k ((k1, v) :: d) = List.lookup k d := by
  simp [List.lookup, h]

theorem lookup_cons_self (k : String) (v : PyValue) (d : PyDict) :
    List.lookup k ((k, v) :: d) = some v := by
  simp [List.lookup]

theorem map_clientSansHeaders_make_child_graphs (cfg : GraphConfigPydantic)
    (tk : Option String) :
    (make_child_graphs cfg tk).map clientSansHeaders =
      cfg.agents.map (fun a => (a.agent_id, a.deployment_url, sanitize_name a.name)) := by
  unfold make_child_graphs
  by_cases h : cfg.agents.isEmpty
  · rw [if_pos h, List.isEmpty_iff.mp h]
    rfl
  · rw [if_neg h, List.map_map]
    rfl

/-! ## Claim theorems -/

/-- C1: `OAPRemoteGraph._sanitize_config` removes from the `configurable`
dictionary and from the `metadata` dictionary every key that is a field of
`GraphConfigPydantic` (namely `agents` and `system_prompt`), and keeps
every other key associated to its original value. -/
theorem sanitize_config_filters (s : RunnableConfig) (k : String) :
    graph_config_fields = ["agents", "system_prompt"] ∧
    (k ∈ graph_config_fields →
      (_sanitize_config s).configurable.map (fun d => d.lookup k) =
        s.configurable.map (fun _ => none) ∧
      (_sanitize_config s).metadata.map (fun d => d.lookup k) =
        s.metadata.map (fun _ => none)) ∧
    (k ∉ graph_config_fields →
      (_sanitize_config s).configurable.map (fun d => d.lookup k) =
        s.configurable.map (fun d => d.lookup k) ∧
      (_sanitize_config s).metadata.map (fun d => d.lookup k) =
        s.metadata.map (fun d => d.lookup k)) := by
  obtain ⟨c, m, o⟩ := s
  refine ⟨rfl, fun hk => ?_, fun hk => ?_⟩
  · cases c <;> cases m <;>
      simp [_sanitize_config, fun d => lookup_filterGraphConfigFields_of_mem d k hk]
  · cases c <;> cases m <;>
      simp [_sanitize_config, fun d => lookup_filterGraphConfigFields_of_not_mem d k hk]

/-- Witness for C1 at a concrete request context: `system_prompt` is a
schema field and is removed from both dictionaries. -/
theorem sanitize_config_filters_witness :
    "system_prompt" ∈ graph_config_fields ∧
    ((_sanitize_config exampleConfigC1).configurable.map (fun d => d.lookup "system_prompt") =
        exampleConfigC1.configurable.map (fun _ => none) ∧
     (_sanitize_config exampleConfigC1).metadata.map (fun d => d.lookup "system_prompt") =
        exampleConfigC1.metadata.map (fun _ => none)) :=
  ⟨by decide, (sanitize_config_filters exampleConfigC1 "system_prompt").2.1 (by decide)⟩

/-- C2: `sanitize_name` returns the input with each space replaced by an
underscore and every occurrence of the characters of `[<|\\/>]` removed,
leaving all other characters unchanged and in their original order (the
per-character description `sanitize_name_spec`). -/
theorem sanitize_name_correct (s : String) : sanitize_name s = sanitize_name_spec s :=
  congrArg String.mk (sanitizeChars_eq_flatMap s.data)

/-- C6: `OAPRemoteGraph._sanitize_config` filters only inside the
`configurable` and `metadata` entries: every other top-level entry, and the
presence of the two filtered entries themselves, is exactly what the parent
sanitizer produced. -/
theorem sanitize_config_frame (s : RunnableConfig) :
    (_sanitize_config s).others = s.others ∧
    (_sanitize_config s).configurable.isSome = s.configurable.isSome ∧
    (_sanitize_config s).metadata.isSome = s.metadata.isSome := by
  obtain ⟨c, m, o⟩ := s
  exact ⟨rfl, by cases c <;> rfl, by cases m <;> rfl⟩

/-- C10: both sanitizers are idempotent: `sanitize_name` applied twice
equals `sanitize_name` applied once, and the field-filtering step of
`OAPRemoteGraph._sanitize_config` applied to its own output equals the
single application. -/
theorem sanitizers_idempotent (s : String) (c : RunnableConfig) :
    sanitize_name (sanitize_name s) = sanitize_name s ∧
    _sanitize_config (_sanitize_config c) = _sanitize_config c := by
  constructor
  · exact congrArg String.mk (sanitizeChars_idem s.data)
  · obtain ⟨cc, mm, oo⟩ := c
    cases cc <;> cases mm <;> simp [_sanitize_config, filterGraphConfigFields_idem]

/-- C3: `make_child_graphs` returns exactly one remote-graph client per
entry of `cfg.agents`, in the same order (the empty list when there are no
agents), and the client at each position carries that agent's id as the
graph identifier, its deployment url, the sanitized configured name, and
the built headers. -/
theorem make_child_graphs_spec (cfg : GraphConfigPydantic) (tok : Option String) :
    (make_child_graphs cfg tok).length = cfg.agents.length ∧
    ∀ i : Nat, (make_child_graphs cfg tok)[i]? =
      cfg.agents[i]?.map (fun a =>
        { graph_id := a.agent_id
          url := a.deployment_url
          name := sanitize_name a.name
          headers := mkHeaders tok }) := by
  unfold make_child_graphs
  by_cases h : cfg.agents.isEmpty
  · rw [List.isEmpty_iff.mp h]
    simp
  · rw [if_neg h]
    refine ⟨by simp, fun i => ?_⟩
    rw [List.getElem?_map]
    rfl

/-- C9: every constructed client receives the same headers dictionary; it
is empty when the access token is `None` or the empty string, and holds
exactly the `Authorization` bearer entry and the `x-supabase-access-token`
entry when the token is a non-empty string. -/
theorem make_child_graphs_headers (cfg : GraphConfigPydantic) (tok : Option String) :
    (∀ g ∈ make_child_graphs cfg tok, g.headers = mkHeaders tok) ∧
    mkHeaders none = [] ∧
    mkHeaders (some "") = [] ∧
    ∀ t : String, t ≠ "" → mkHeaders (some t) =
      [("Authorization", "Bearer " ++ t), ("x-supabase-access-token", t)] := by
  refine ⟨?_, rfl, by simp [mkHeaders], fun t ht => by simp [mkHeaders, ht]⟩
  intro g hg
  unfold make_child_graphs at hg
  by_cases h : cfg.agents.isEmpty
  · rw [if_pos h] at hg
    exact absurd hg (List.not_mem_nil g)
  · rw [if_neg h] at hg
    obtain ⟨a, _, rfl⟩ := List.mem_map.mp hg
    rfl

/-- Witness for C9 at one concrete agent and the token `tok`: the
constructed client holds exactly the two header entries. -/
theorem make_child_graphs_headers_witness :
    ({ graph_id := "agent-1", url := "http://localhost:2024", name := "my_agent",
       headers := [("Authorization", "Bearer tok"), ("x-supabase-access-token", "tok")] } :
        OAPRemoteGraphClient).headers = mkHeaders (some "tok") ∧
    mkHeaders (some "tok") =
      [("Authorization", "Bearer tok"), ("x-supabase-access-token", "tok")] :=
  ⟨(make_child_graphs_headers exampleConfigC9 (some "tok")).1 _ (by decide),
   (make_child_graphs_headers exampleConfigC9 (some "tok")).2.2.2 "tok" (by decide)⟩

/-- C8: when the configured system prompt is a string, `make_prompt`
returns it with `UNEDITABLE_SYSTEM_PROMPT` appended; when the configuration
was built with an explicit `None` prompt, `make_prompt` raises the Python
`TypeError` instead of falling back to the default prompt. -/
theorem make_prompt_spec (cfg : GraphConfigPydantic) :
    (∀ s : String, cfg.system_prompt = some s →
      make_prompt cfg = .ok (s ++ UNEDITABLE_SYSTEM_PROMPT)) ∧
    (cfg.system_prompt = none → make_prompt cfg = .error pyAddNoneTypeError) := by
  constructor
  · intro s hs
    simp [make_prompt, hs]
  · intro h
    simp [make_prompt, h]

/-- Witness for C8: a concrete string prompt succeeds with the suffix
appended, and a concrete explicit-`None` prompt raises. -/
theorem make_prompt_spec_witness :
    make_prompt { agents := [], system_prompt := some "Hello" } =
      .ok ("Hello" ++ UNEDITABLE_SYSTEM_PROMPT) ∧
    make_prompt { agents := [], system_prompt := none } = .error pyAddNoneTypeError :=
  ⟨(make_prompt_spec { agents := [], system_prompt := some "Hello" }).1 "Hello" rfl,
   (make_prompt_spec { agents := [], system_prompt := none }).2 rfl⟩

/-- C7: the construction functions are pure data transformations: two runs
on equal inputs return equal outputs, and no state outside the returned
values exists in the embedding. -/
theorem construction_two_run (cfg cfg2 : GraphConfigPydantic) (tok tok2 : Option String)
    (s s2 : RunnableConfig) (h1 : cfg = cfg2) (h2 : tok = tok2) (h3 : s = s2) :
    make_child_graphs cfg tok = make_child_graphs cfg2 tok2 ∧
    make_prompt cfg = make_prompt cfg2 ∧
    _sanitize_config s = _sanitize_config s2 := by
  subst h1
  subst h2
  subst h3
  exact ⟨rfl, rfl, rfl⟩

/-- Witness for C7 at concrete equal inputs. -/
theorem construction_two_run_witness :
    make_child_graphs {} none = make_child_graphs {} none ∧
    make_prompt {} = make_prompt {} ∧
    _sanitize_config ⟨none, none, []⟩ = _sanitize_config ⟨none, none, []⟩ :=
  construction_two_run {} {} none none ⟨none, none, []⟩ ⟨none, none, []⟩ rfl rfl rfl

/-- C4: `graph` parses the `configurable` entry into `GraphConfigPydantic`
(an absent or empty entry yields the defaults: no agents and the default
supervisor prompt), and hands the remote-graph handles, the model handle,
and the prompt to `create_supervisor` with handoff tool name pre-fix
`delegate_to_`, the `GraphConfigPydantic` config schema, and output mode
`full_history`. -/
theorem graph_spec (config : RunnableConfig) :
    ((config.configurable = none ∨ config.configurable = some []) →
      graph config = .ok
        { children := []
          model := { model := "gpt-4o" }
          prompt := DEFAULT_SUPERVISOR_PROMPT ++ UNEDITABLE_SYSTEM_PROMPT
          config_schema := graph_config_fields
          handoff_tool_pfx := "delegate_to_"
          output_mode := "full_history" }) ∧
    (∀ (cfg : GraphConfigPydantic) (p : String),
      parseGraphConfig (config.configurable.getD []) = .ok cfg →
      make_prompt cfg = .ok p →
      graph config = .ok
        { children := make_child_graphs cfg
            (asStrOpt ((config.configurable.getD []).lookup "x-supabase-access-token"))
          model := make_model cfg
          prompt := p
          config_schema := graph_config_fields
          handoff_tool_pfx := "delegate_to_"
          output_mode := "full_history" }) := by
  constructor
  · intro h
    have hc : config.configurable.getD [] = [] := by
      rcases h with h | h <;> simp [h]
    simp only [graph, hc]
    rfl
  · intro cfg p hparse hprompt
    simp only [graph, hparse, hprompt]

/-- Witness for C4: the default path on a context with no `configurable`
entry, and the general path on a concrete context with one agent, a custom
prompt, and a token. -/
theorem graph_spec_witness :
    graph exampleEmptyConfig = .ok
      { children := []
        model := { model := "gpt-4o" }
        prompt := DEFAULT_SUPERVISOR_PROMPT ++ UNEDITABLE_SYSTEM_PROMPT
        config_schema := graph_config_fields
        handoff_tool_pfx := "delegate_to_"
        output_mode := "full_history" } ∧
    graph exampleConfigC4 = .ok
      { children := make_child_graphs
          { agents := [{ deployment_url := "http://u", agent_id := "aid", name := "a b" }]
            system_prompt := some "S" }
          (asStrOpt ((exampleConfigC4.configurable.getD []).lookup
            "x-supabase-access-token"))
        model := make_model
          { agents := [{ deployment_url := "http://u", agent_id := "aid", name := "a b" }]
            system_prompt := some "S" }
        prompt := "S" ++ UNEDITABLE_SYSTEM_PROMPT
        config_schema := graph_config_fields
        handoff_tool_pfx := "delegate_to_"
        output_mode := "full_history" } :=
  ⟨(graph_spec exampleEmptyConfig).1 (Or.inl rfl),
   (graph_spec exampleConfigC4).2
     { agents := [{ deployment_url := "http://u", agent_id := "aid", name := "a b" }]
       system_prompt := some "S" }
     ("S" ++ UNEDITABLE_SYSTEM_PROMPT) (by rfl) rfl⟩

/-- C5 counterexample: the access token does influence a field this code
sets on the constructed clients: with one configured agent, two different
tokens yield different client lists (their headers differ). -/
theorem token_influences_constructed_clients :
    make_child_graphs exampleConfigC5 (some "a") ≠
      make_child_graphs exampleConfigC5 (some "b") := by
  decide

/-- C5 (amended): the access token influences only the `headers` entry of
the constructed clients; every other field of every client, and every other
argument `graph` hands to `create_supervisor` (model, prompt, config
schema, handoff tool name pre-fix, output mode), is the same for any two
access tokens.  The propagation of those headers over the wire lives in
the external framework. -/
theorem token_noninterference_outside_headers (cfg : GraphConfigPydantic)
    (t t2 : Option String) (d : PyDict) (m : Option PyDict) (o : PyDict)
    (u u2 : String) :
    (make_child_graphs cfg t).map clientSansHeaders =
      (make_child_graphs cfg t2).map clientSansHeaders ∧
    (graph { configurable := some (("x-supabase-access-token", .pyStr u) :: d),
             metadata := m, others := o }).map callSansHeaders =
      (graph { configurable := some (("x-supabase-access-token", .pyStr u2) :: d),
               metadata := m, others := o }).map callSansHeaders := by
  have hparse : ∀ u3 : String,
      parseGraphConfig (("x-supabase-access-token", PyValue.pyStr u3) :: d) =
        parseGraphConfig d := by
    intro u3
    unfold parseGraphConfig
    rw [lookup_cons_ne _ _ _ _ (by decide), lookup_cons_ne _ _ _ _ (by decide)]
  have htok : ∀ u3 : String,
      asStrOpt (List.lookup "x-supabase-access-token"
        (("x-supabase-access-token", PyValue.pyStr u3) :: d)) = some u3 := by
    intro u3
    rw [lookup_cons_self]
    rfl
  constructor
  · exact (map_clientSansHeaders_make_child_graphs cfg t).trans
      (map_clientSansHeaders_make_child_graphs cfg t2).symm
  · unfold graph
    simp only [Option.getD_some]
    rw [hparse u, hparse u2, htok u, htok u2]
    cases hp : parseGraphConfig d with
    | error e => rfl
    | ok cfg2 =>
        cases hmp : make_prompt cfg2 with
        | error e => simp [hmp]
        | ok p =>
            simp [hmp, Except.map, callSansHeaders,
              map_clientSansHeaders_make_child_graphs]

end OAPSupervisor
